import Mathlib

/-!
Verification development for a CSV-to-SQLite loader (`load_csv_to_sqlite.py`)
and an MCP SQLite query service (`sql_mcp.py`).

The Python functions are shallowly embedded as pure Lean functions:

* Python dictionaries become association lists `List (String × JValue)`,
  preserving insertion order, with a small JSON-like value type `JValue`.
* The SQLite engine is external to the repository; it is modelled by
  `execute_query`, which evaluates exactly the statement forms this program
  issues against a `DB` value (a list of tables).  The query-service
  operations are additionally parameterized over an arbitrary store function
  `String → Except String (List Dict)` standing for "call the database and
  either get rows back or have an exception raised", so that properties such
  as the envelope invariant hold for every store behaviour.
* A raised Python exception becomes `Except.error msg` where `msg` is the
  exception text (`str(e)`); a `try/except` branch becomes a `match` on it.
* `str.strip`/`str.upper` are modelled character-wise (`pyStrip`, `pyUpper`)
  on the ASCII range, which covers the statements this service handles.
-/

/-- JSON-like values: the shapes Python dict values take in this program. -/
inductive JValue where
  | str (s : String)
  | nat (n : Nat)
  | bool (b : Bool)
  | null
  | arr (xs : List JValue)
  | obj (kvs : List (String × JValue))

/-- A Python dictionary with string keys, in insertion order. -/
abbrev Dict := List (String × JValue)

/-- Python truthiness (`bool(x)`) on the values this program inspects. -/
def jTruthy : JValue → Bool
  | .str s => s != ""
  | .nat n => n != 0
  | .bool b => b
  | .null => false
  | .arr xs => !xs.isEmpty
  | .obj kvs => !kvs.isEmpty

/-- Dictionary key access `d[k]`: `Except` models the `KeyError` Python
raises on a missing key, with Python's `str(KeyError(k))` message. -/
def getKey (d : Dict) (k : String) : Except String JValue :=
  match d.lookup k with
  | some v => .ok v
  | none => .error ("'" ++ k ++ "'")

/-- Python `str.isspace` characters in the ASCII range, the set stripped by
`str.strip()` for the inputs this service handles. -/
def pyIsSpace (c : Char) : Bool :=
  c == ' ' || c == '\t' || c == '\n' || c == '\r' ||
    c == Char.ofNat 11 || c == Char.ofNat 12

/-- Python `str.strip()`: drop leading and trailing whitespace. -/
def pyStrip (s : String) : String :=
  ⟨((s.data.dropWhile pyIsSpace).reverse.dropWhile pyIsSpace).reverse⟩

/-- Python `str.upper()` (ASCII case mapping). -/
def pyUpper (s : String) : String :=
  ⟨s.data.map Char.toUpper⟩

/-- Character-list version of `str.startswith`. -/
def startsAux : List Char → List Char → Bool
  | _, [] => true
  | [], _ :: _ => false
  | c :: cs, d :: ds => c == d && startsAux cs ds

/-- Python `s.startswith(p)`. -/
def pyStartswith (s p : String) : Bool :=
  startsAux s.data p.data

/-- ASCII lower-casing, used for SQLite's case-insensitive identifier
comparison. -/
def lowerStr (s : String) : String :=
  ⟨s.data.map Char.toLower⟩

/-- A SQLite column: declared name and type. -/
structure Column where
  name : String
  type : String
  deriving Repr, DecidableEq

/-- A SQLite table: name, ordered columns, and rows of text values. -/
structure Table where
  name : String
  cols : List Column
  rows : List (List String)
  deriving Repr, DecidableEq

/-- The relational store: the list of tables in the database. -/
abbrev DB := List Table

/-- Look a table up by name; SQLite compares table names
case-insensitively (ASCII). -/
def lookupTable (db : DB) (n : String) : Option Table :=
  db.find? (fun t => lowerStr t.name == lowerStr n)

/-- Bare SQLite identifier: nonempty, alphanumeric or underscore, not
starting with a digit.  `PRAGMA table_info(x)` parses exactly when its
argument has this shape. -/
def isIdent (s : String) : Bool :=
  match s.data with
  | [] => false
  | c :: cs => (c.isAlpha || c == '_') &&
      (c :: cs).all (fun d => d.isAlphanum || d == '_')

/-- Insertion into an alphabetically sorted list (models `ORDER BY name`). -/
def insertSorted (x : String) : List String → List String
  | [] => [x]
  | y :: ys => if x ≤ y then x :: y :: ys else y :: insertSorted x ys

/-- Sort strings ascending (models SQLite `ORDER BY name` on text). -/
def sortStrings (l : List String) : List String :=
  l.foldr insertSorted []

/-- One `PRAGMA table_info` result row for column `c` at position `i`:
`cid, name, type, notnull, dflt_value, pk`.  Loader-created columns have no
NOT NULL constraint, no default and no primary key. -/
def pragmaRow (i : Nat) (c : Column) : Dict :=
  [("cid", .nat i), ("name", .str c.name), ("type", .str c.type),
   ("notnull", .nat 0), ("dflt_value", .null), ("pk", .nat 0)]

/-- The fixed metadata query issued by `list_tables` (sql_mcp.py line 45). -/
def listTablesQuery : String :=
  "SELECT name FROM sqlite_master WHERE type='table' ORDER BY name"

/-- Model of the SQLite engine (external library) on the statement forms
this program issues: the `sqlite_master` listing, `PRAGMA table_info`,
`SELECT count(*) FROM t` and `SELECT * FROM t`.  `Except.error` carries the
message of the `sqlite3` exception the engine would raise.  This plays the
role of `execute_query` in sql_mcp.py lines 17-34 (open a connection, run
the statement, return rows as dictionaries, or let the exception escape). -/
def execute_query (db : DB) (q : String) : Except String (List Dict) :=
  if q = listTablesQuery then
    .ok ((sortStrings (db.map (·.name))).map (fun n => [("name", .str n)]))
  else if pyStartswith q "PRAGMA table_info(" ∧ q.data.getLast? = some ')' then
    let tn : String := ⟨(q.data.drop 18).dropLast⟩
    if isIdent tn then
      match lookupTable db tn with
      | some t => .ok (List.zipWith pragmaRow (List.range t.cols.length) t.cols)
      | none => .ok []
    else .error ("near \"" ++ tn ++ "\": syntax error")
  else if pyStartswith q "SELECT count(*) FROM " then
    let tn : String := ⟨q.data.drop 21⟩
    if isIdent tn then
      match lookupTable db tn with
      | some t => .ok [[("count(*)", .nat t.rows.length)]]
      | none => .error ("no such table: " ++ tn)
    else .error ("near \"" ++ tn ++ "\": syntax error")
  else if pyStartswith q "SELECT * FROM " then
    let tn : String := ⟨q.data.drop 14⟩
    if isIdent tn then
      match lookupTable db tn with
      | some t =>
          .ok (t.rows.map (fun r =>
            List.zipWith (fun c v => (c.name, JValue.str v)) t.cols r))
      | none => .error ("no such table: " ++ tn)
    else .error ("near \"" ++ tn ++ "\": syntax error")
  else .error ("near \"" ++ q ++ "\": syntax error")

/-- An abstract store: what `execute_query` looks like from the query
service's side — send a statement, get rows back or an exception. -/
abbrev Store := String → Except String (List Dict)

/-- The error envelope built by every `except` branch of the service. -/
def errEnv (m : String) : Dict :=
  [("status", .str "error"), ("error_message", .str m)]

/-- The rejection envelope of `execute_select_query` (sql_mcp.py 119-122). -/
def validationEnv : Dict :=
  errEnv "Only SELECT queries are allowed for this tool"

/-- Model of `execute_select_query` (sql_mcp.py lines 104-137), also
returning the list of statements actually sent to the store, so that
"the query was not executed" is expressible.  The code validates
`query.strip().upper().startswith("SELECT")`, short-circuiting before any
store call; otherwise it runs the query and wraps rows or the exception
message in an envelope. -/
def execute_select_queryT (store : Store) (query : String) :
    Dict × List String :=
  if pyStartswith (pyUpper (pyStrip query)) "SELECT" then
    match store query with
    | .ok results =>
        ([("status", .str "success"), ("query", .str query),
          ("total_rows", .nat results.length),
          ("results", .arr (results.map .obj))], [query])
    | .error e => (errEnv ("Error executing query: " ++ e), [query])
  else
    (validationEnv, [])

/-- The envelope returned by `execute_select_query` (the MCP tool named
`run_query` in the specification). -/
def execute_select_query (store : Store) (query : String) : Dict :=
  (execute_select_queryT store query).1

/-- The comprehension `[row['name'] for row in results]` of sql_mcp.py
line 46; a row without a `name` key would raise `KeyError` (caught by the
surrounding `try`). -/
def extractNames (results : List Dict) : Except String (List JValue) :=
  results.mapM (fun r => getKey r "name")

/-- Model of `list_tables` (sql_mcp.py lines 36-58): query `sqlite_master`
for table names and wrap them in a success envelope; any exception raised
inside the `try` — by the store call or by the name extraction — becomes
an error envelope carrying `"Error listing tables: " ++ str(e)`. -/
def list_tables (store : Store) : Dict :=
  match store listTablesQuery >>= extractNames with
  | .error e => errEnv ("Error listing tables: " ++ e)
  | .ok tables =>
      [("status", .str "success"), ("total_tables", .nat tables.length),
       ("tables", .arr tables)]

/-- The statement text `describe_table` sends to the store (sql_mcp.py
line 73): the f-string `f"PRAGMA table_info({table_name})"`, with the
caller-controlled `table_name` interpolated into the SQL text. -/
def describeQueryText (table_name : String) : String :=
  "PRAGMA table_info(" ++ table_name ++ ")"

/-- The column dictionary `describe_table` builds from one
`PRAGMA table_info` row (sql_mcp.py lines 82-90); a missing key raises
`KeyError`, caught by the surrounding `try`. -/
def buildColumn (r : Dict) : Except String Dict := do
  let cid ← getKey r "cid"
  let nm ← getKey r "name"
  let ty ← getKey r "type"
  let nn ← getKey r "notnull"
  let dv ← getKey r "dflt_value"
  let pk ← getKey r "pk"
  pure [("column_id", cid), ("name", nm), ("type", ty),
        ("not_null", .bool (jTruthy nn)), ("default_value", dv),
        ("primary_key", .bool (jTruthy pk))]

/-- The part of `describe_table` that shapes a non-exceptional metadata
result (sql_mcp.py lines 75-96): an empty result means the table does not
exist; otherwise the column dictionaries are built and wrapped in a
success envelope (a `KeyError` while building them is caught by the
surrounding `try`). -/
def describeBody (table_name : String) (results : List Dict) : Dict :=
  if results.isEmpty then
    errEnv ("Table '" ++ table_name ++ "' does not exist")
  else
    match results.mapM buildColumn with
    | .error e => errEnv ("Error describing table: " ++ e)
    | .ok columns =>
        [("status", .str "success"), ("table_name", .str table_name),
         ("columns", .arr (columns.map .obj))]

/-- Model of `describe_table` (sql_mcp.py lines 60-102), also returning the
statements sent to the store.  The table name is interpolated into the
PRAGMA text; any exception yields the `"Error describing table: ..."`
envelope. -/
def describe_tableT (store : Store) (table_name : String) :
    Dict × List String :=
  let env :=
    match store (describeQueryText table_name) with
    | .error e => errEnv ("Error describing table: " ++ e)
    | .ok results => describeBody table_name results
  (env, [describeQueryText table_name])

/-- The envelope returned by `describe_table`. -/
def describe_table (store : Store) (table_name : String) : Dict :=
  (describe_tableT store table_name).1

/-! ### The loader (`load_csv_to_sqlite.py`)

`load_database` opens the CSV file, takes the first row as the header,
creates the table `electric_vehicle_population` with one TEXT column per
header field, and bulk-inserts the remaining rows with a parameterized
INSERT.  The file is modelled after the `csv` module has done its work: an
unreadable file is `none` (Python: `open` raises `OSError`, whose alias is
`IOError`), a readable one is `some rows` with each row a list of fields.
-/

/-- The Python exceptions `load_database` can raise, none of which it
catches. -/
inductive LoadError where
  | ioError (msg : String)
  | stopIteration
  | operationalError (msg : String)
  | programmingError (msg : String)
  deriving Repr, DecidableEq

/-- The CREATE TABLE text of load_csv_to_sqlite.py lines 17-18:
`', '.join(f'[{h}] TEXT' for h in headers)` spliced into the template. -/
def createTableSql (headers : List String) : String :=
  "CREATE TABLE electric_vehicle_population (" ++
    String.intercalate ", " (headers.map (fun h => "[" ++ h ++ "] TEXT")) ++ ")"

/-- The INSERT text of load_csv_to_sqlite.py lines 19-20:
`', '.join('?' * len(headers))` spliced into the template — its text
depends only on the number of header fields, never on row data. -/
def insertSql (n : Nat) : String :=
  "INSERT INTO electric_vehicle_population VALUES (" ++
    String.intercalate ", " (List.replicate n "?") ++ ")"

/-- The two statements the loader issues, each with its bound parameter
rows: CREATE TABLE carries no parameters, and the data rows travel only as
the parameter sets of the single parameterized INSERT
(`conn.executemany(insert_sql, reader)`). -/
def loaderStatements (headers : List String) (dataRows : List (List String)) :
    List (String × List (List String)) :=
  [(createTableSql headers, []), (insertSql headers.length, dataRows)]

/-- Model of the SQLite engine executing the generated CREATE TABLE: it
rejects an empty column list and a `]` inside a bracket-quoted name as
syntax errors, and duplicate column names (ASCII case-insensitive) with
`sqlite3.OperationalError: duplicate column name`; otherwise it creates the
all-TEXT table. -/
def sqliteCreateTable (headers : List String) : Except String Table :=
  if headers.isEmpty then .error "incomplete input"
  else if headers.any (fun h => h.data.contains ']') then
    .error "unrecognized token"
  else if !(headers.map lowerStr).Nodup then
    .error "duplicate column name"
  else .ok ⟨"electric_vehicle_population",
            headers.map (fun h => ⟨h, "TEXT"⟩), []⟩

/-- Model of `load_database` (load_csv_to_sqlite.py lines 6-22).
`none` (unreadable file) raises `IOError`; an empty file makes
`next(reader)` raise `StopIteration`; the CREATE TABLE can raise
`sqlite3.OperationalError`; `executemany` raises
`sqlite3.ProgrammingError` when a row's width differs from the header's.
On success the in-memory database holds the one loaded table. -/
def load_database (file : Option (List (List String))) :
    Except LoadError DB :=
  match file with
  | none => .error (.ioError "No such file or directory")
  | some [] => .error .stopIteration
  | some (headers :: dataRows) =>
    match sqliteCreateTable headers with
    | .error e => .error (.operationalError e)
    | .ok table =>
      if dataRows.all (fun r => r.length = headers.length) then
        .ok [{ table with rows := dataRows }]
      else .error (.programmingError "Incorrect number of bindings supplied")

/-! ### The Result Envelope invariant -/

/-- The payload fields of an envelope: every key other than `status` and
`error_message`. -/
def payloadKeys (d : Dict) : List String :=
  (d.map Prod.fst).filter (fun k => !(k == "status" || k == "error_message"))

/-- Well-formed Result Envelope: either a success envelope carrying payload
data and no `error_message`, or an error envelope carrying `error_message`
and no payload data — never both, never neither. -/
def envelopeOk (d : Dict) : Prop :=
  (d.lookup "status" = some (.str "success") ∧
    d.lookup "error_message" = none ∧ payloadKeys d ≠ []) ∨
  (d.lookup "status" = some (.str "error") ∧
    (∃ m, d.lookup "error_message" = some (.str m)) ∧ payloadKeys d = [])

/-! ### Helper lemmas -/

/-- A list starts with itself, whatever follows. -/
theorem startsAux_append (l r : List Char) : startsAux (l ++ r) l = true := by
  induction l with
  | nil => cases r <;> rfl
  | cons c cs ih => simp [startsAux, ih]

/-- A string is determined by its character list. -/
theorem strEta (s : String) : (⟨s.data⟩ : String) = s := by
  cases s
  rfl

/-- The characters of the interpolated PRAGMA statement. -/
theorem pragma_query_data (tn : String) :
    (describeQueryText tn).data =
      "PRAGMA table_info(".data ++ (tn.data ++ [')']) := by
  unfold describeQueryText
  rw [String.data_append, String.data_append, List.append_assoc]

/-- The interpolated PRAGMA statement is never the `sqlite_master`
listing query. -/
theorem pragma_ne_listq (tn : String) :
    describeQueryText tn ≠ listTablesQuery := by
  intro h
  have h2 : (some 'P' : Option Char) = some 'S' :=
    congrArg (fun s : String => s.data.head?) h
  exact absurd h2 (by decide)

/-- A store-failure message wrapped by `execute_select_query` is never the
validation-rejection message. -/
theorem errExecMsg_ne (e : String) :
    ("Error executing query: " ++ e) ≠
      "Only SELECT queries are allowed for this tool" := by
  intro h
  have h2 : (some 'E' : Option Char) = some 'O' :=
    congrArg (fun s : String => s.data.head?) h
  exact absurd h2 (by decide)

/-- Evaluating the modelled engine on the PRAGMA statement for a
well-formed identifier: the metadata rows of the table, or the empty
result when no such table exists — never an error. -/
theorem execute_query_pragma (db : DB) (tn : String)
    (hid : isIdent tn = true) :
    execute_query db (describeQueryText tn) =
      match lookupTable db tn with
      | some t => .ok (List.zipWith pragmaRow (List.range t.cols.length) t.cols)
      | none => .ok [] := by
  unfold execute_query
  rw [if_neg (pragma_ne_listq tn)]
  have hstart : pyStartswith (describeQueryText tn) "PRAGMA table_info(" = true := by
    unfold pyStartswith
    rw [pragma_query_data]
    exact startsAux_append _ _
  have hlast : (describeQueryText tn).data.getLast? = some ')' := by
    rw [pragma_query_data, ← List.append_assoc]
    exact List.getLast?_concat _
  rw [if_pos ⟨hstart, hlast⟩]
  have hdrop : (⟨((describeQueryText tn).data.drop 18).dropLast⟩ : String) = tn := by
    rw [pragma_query_data]
    rw [show (18 : Nat) = ("PRAGMA table_info(".data).length from rfl]
    rw [List.drop_left, List.dropLast_concat]
  rw [hdrop]
  simp [hid]

/-- Evaluating the modelled engine on `SELECT * FROM t`. -/
theorem execute_query_select_t (db : DB) :
    execute_query db "SELECT * FROM t" =
      match lookupTable db "t" with
      | some t => .ok (t.rows.map (fun r =>
          List.zipWith (fun c v => (c.name, JValue.str v)) t.cols r))
      | none => .error ("no such table: t") := by
  unfold execute_query
  rw [if_neg (by decide), if_neg (by decide), if_neg (by decide),
    if_pos (by decide)]
  simp +decide

/-- Evaluating the modelled engine on the count query used for the
round-trip property. -/
theorem execute_query_count_evp (db : DB) :
    execute_query db "SELECT count(*) FROM electric_vehicle_population" =
      match lookupTable db "electric_vehicle_population" with
      | some t => .ok [[("count(*)", .nat t.rows.length)]]
      | none => .error "no such table: electric_vehicle_population" := by
  unfold execute_query
  rw [if_neg (by decide), if_neg (by decide), if_pos (by decide)]
  simp +decide

/-! ### Claim theorems -/

/-- C6: for every input whose trimmed, upper-cased text does not start with
`SELECT`, `run_query` returns the fixed rejection envelope — the
realization of the specification's `ValidationError` ("only read-only
queries are allowed") — and sends nothing to the store (the statement
trace is empty, and the result is the same for every store), so the query
is not executed.  In particular `run_query("DELETE FROM t")` is rejected
this way. -/
theorem run_query_rejects_non_select (q : String)
    (h : pyStartswith (pyUpper (pyStrip q)) "SELECT" = false) :
    ∀ store : Store, execute_select_queryT store q =
      (errEnv "Only SELECT queries are allowed for this tool", []) := by
  intro store
  simp [execute_select_queryT, h, validationEnv]

/-- C6 witness: `run_query("DELETE FROM t")` returns the rejection envelope
without consulting the store. -/
theorem run_query_rejects_non_select_witness :
    execute_select_queryT (execute_query []) "DELETE FROM t" =
      (errEnv "Only SELECT queries are allowed for this tool", []) :=
  run_query_rejects_non_select "DELETE FROM t" (by decide) (execute_query [])

/-- C10: `run_query` returns the validation-rejection envelope exactly when
the trimmed, upper-cased input does not begin with the six characters
`SELECT`; whenever that check passes — including prefixes of longer words
such as `SELECTION ...` — the raw query text is sent to the store.  The
check applies no word boundary or further analysis. -/
theorem run_query_validation_iff (store : Store) (q : String) :
    (execute_select_query store q = validationEnv ↔
      pyStartswith (pyUpper (pyStrip q)) "SELECT" = false) ∧
    (pyStartswith (pyUpper (pyStrip q)) "SELECT" = true →
      (execute_select_queryT store q).2 = [q]) := by
  constructor
  · constructor
    · intro h
      cases hb : pyStartswith (pyUpper (pyStrip q)) "SELECT" with
      | false => rfl
      | true =>
        exfalso
        unfold execute_select_query execute_select_queryT at h
        rw [if_pos hb] at h
        cases hsq : store q with
        | ok results =>
          rw [hsq] at h
          have h2 : (4 : Nat) = 2 := congrArg List.length h
          exact absurd h2 (by decide)
        | error e =>
          rw [hsq] at h
          have h3 := congrArg (fun d : Dict => d.lookup "error_message") h
          simp +decide [errEnv, validationEnv, List.lookup] at h3
          exact errExecMsg_ne e h3
    · intro h
      simp [execute_select_query, execute_select_queryT, h]
  · intro h
    unfold execute_select_queryT
    rw [if_pos h]
    cases hsq : store q <;> rfl

/-- C10 witness: `run_query("SELECTION FROM t")` is not rejected by
validation (the envelope is not the rejection envelope) and the text is
sent to the store, while `run_query("DELETE FROM t")` is rejected. -/
theorem run_query_validation_iff_witness :
    (¬ execute_select_query (execute_query []) "SELECTION FROM t" =
        validationEnv) ∧
    (execute_select_queryT (execute_query []) "SELECTION FROM t").2 =
      ["SELECTION FROM t"] ∧
    execute_select_query (execute_query []) "DELETE FROM t" =
      validationEnv := by
  refine ⟨fun h => ?_, ?_, ?_⟩
  · exact absurd
      ((run_query_validation_iff (execute_query []) "SELECTION FROM t").1.mp h)
      (by decide)
  · exact (run_query_validation_iff (execute_query [])
      "SELECTION FROM t").2 (by decide)
  · exact (run_query_validation_iff (execute_query [])
      "DELETE FROM t").1.mpr (by decide)

/-- C1: when validation passes and the store fails with message `e`
(a raised exception in the Python code), `run_query` returns — rather than
propagates — an error envelope whose `error_message` contains the store's
message `e`. -/
theorem run_query_store_error_envelope (store : Store) (q e : String)
    (hv : pyStartswith (pyUpper (pyStrip q)) "SELECT" = true)
    (hs : store q = .error e) :
    execute_select_query store q =
      errEnv ("Error executing query: " ++ e) ∧
    ∃ p, (execute_select_query store q).lookup "error_message" =
      some (.str (p ++ e)) := by
  have h1 : execute_select_query store q =
      errEnv ("Error executing query: " ++ e) := by
    unfold execute_select_query execute_select_queryT
    rw [if_pos hv, hs]
  exact ⟨h1, "Error executing query: ", by rw [h1]; rfl⟩

/-- C1 witness: `run_query("SELECT * FROM nosuchtable")` against an empty
store yields the error envelope carrying the engine's
`no such table` message. -/
theorem run_query_store_error_envelope_witness :
    execute_select_query (execute_query []) "SELECT * FROM nosuchtable" =
      errEnv "Error executing query: no such table: nosuchtable" :=
  (run_query_store_error_envelope (execute_query [])
    "SELECT * FROM nosuchtable" "no such table: nosuchtable"
    (by decide) (by rfl)).1

/-- C8: `run_query("SELECT * FROM t")` on a store holding an empty table
`t` returns the success envelope with `total_rows = 0` and
`results = []`. -/
theorem run_query_empty_table (db : DB) (t : Table)
    (ht : lookupTable db "t" = some t) (hr : t.rows = []) :
    execute_select_query (execute_query db) "SELECT * FROM t" =
      [("status", .str "success"), ("query", .str "SELECT * FROM t"),
       ("total_rows", .nat 0), ("results", .arr [])] := by
  unfold execute_select_query execute_select_queryT
  rw [if_pos (by decide), execute_query_select_t db, ht]
  simp [hr]

/-- C8 witness: the property at a one-column empty table `t`. -/
theorem run_query_empty_table_witness :
    execute_select_query (execute_query [⟨"t", [⟨"a", "TEXT"⟩], []⟩])
        "SELECT * FROM t" =
      [("status", .str "success"), ("query", .str "SELECT * FROM t"),
       ("total_rows", .nat 0), ("results", .arr [])] :=
  run_query_empty_table [⟨"t", [⟨"a", "TEXT"⟩], []⟩]
    ⟨"t", [⟨"a", "TEXT"⟩], []⟩ (by rfl) rfl

/-- C2 counterexample: the SQL text `describe_table` sends to the store is
not a fixed template independent of the untrusted `table_name` argument —
the argument is interpolated into the statement text, so different
arguments produce different statement texts. -/
theorem describe_table_interpolates_name :
    (describe_tableT (execute_query []) "a").2 = ["PRAGMA table_info(a)"] ∧
    (describe_tableT (execute_query []) "b").2 = ["PRAGMA table_info(b)"] ∧
    (describe_tableT (execute_query []) "a").2 ≠
      (describe_tableT (execute_query []) "b").2 :=
  ⟨rfl, rfl, by decide⟩

/-- C2 amended: the loader's data rows reach the store only as bound
parameters — the texts of its two statements (CREATE TABLE and the
parameterized INSERT) depend only on the header, not on any data row —
but `describe_table` interpolates its `table_name` argument into the
PRAGMA statement text (and the loader splices header names into the
CREATE TABLE text), so those untrusted values do alter the SQL text. -/
theorem loader_rows_only_parameters (headers : List String)
    (rows rows' : List (List String)) :
    (loaderStatements headers rows).map Prod.fst =
      (loaderStatements headers rows').map Prod.fst ∧
    (loaderStatements headers rows).map Prod.fst =
      [createTableSql headers, insertSql headers.length] ∧
    describeQueryText "a" ≠ describeQueryText "b" :=
  ⟨rfl, rfl, by decide⟩

/-- C5: describing a table name (well-formed identifier) that exists in no
table of the store yields the "does not exist" error envelope — the
realization of the specification's `NotFoundError` — and the metadata
query itself returns an empty result rather than failing, which is how
non-existence is detected (the envelope comes from the empty-result
branch, not the exception branch). -/
theorem describe_table_missing (db : DB) (tn : String)
    (hid : isIdent tn = true) (hnone : lookupTable db tn = none) :
    describe_table (execute_query db) tn =
      errEnv ("Table '" ++ tn ++ "' does not exist") ∧
    execute_query db (describeQueryText tn) = .ok [] := by
  have hq : execute_query db (describeQueryText tn) = .ok [] := by
    rw [execute_query_pragma db tn hid, hnone]
  refine ⟨?_, hq⟩
  unfold describe_table describe_tableT
  rw [hq]
  rfl

/-- C5 witness: `describe_table("missing")` on an empty store. -/
theorem describe_table_missing_witness :
    describe_table (execute_query []) "missing" =
      errEnv "Table 'missing' does not exist" :=
  (describe_table_missing [] "missing" (by decide) rfl).1

/-- Unfolding the loader on a readable, nonempty file: create the table,
then bulk-insert. -/
theorem load_database_cons (headers : List String)
    (dataRows : List (List String)) :
    load_database (some (headers :: dataRows)) =
      match sqliteCreateTable headers with
      | .error e => .error (.operationalError e)
      | .ok table =>
        if dataRows.all (fun r => r.length = headers.length) then
          .ok [{ table with rows := dataRows }]
        else
          .error (.programmingError "Incorrect number of bindings supplied") :=
  rfl

/-- Mapping `Column.name` over loader-built columns recovers the header. -/
theorem map_name_mk_text (l : List String) :
    (l.map fun h => Column.mk h "TEXT").map Column.name = l := by
  induction l with
  | nil => rfl
  | cons a t ih => simp [ih]

/-- C3: the loader raises `IOError` (Python's alias of `OSError`, from
`open`) when the file is unreadable, and raises a schema-level store error
(`sqlite3.OperationalError` from the generated CREATE TABLE — the
realization of the specification's `SchemaError`) when the header row is
empty or contains duplicate column names; in every such case no database
is produced. -/
theorem load_database_failure_modes :
    load_database none = .error (.ioError "No such file or directory") ∧
    (∀ dataRows : List (List String),
      load_database (some ([] :: dataRows)) =
        .error (.operationalError "incomplete input")) ∧
    (∀ (headers : List String) (dataRows : List (List String)),
      headers ≠ [] → ¬ headers.Nodup →
      ∃ m, load_database (some (headers :: dataRows)) =
        .error (.operationalError m)) := by
  refine ⟨rfl, fun dataRows => rfl, fun headers dataRows hne hdup => ?_⟩
  have h1 : headers.isEmpty = false := by
    cases headers with
    | nil => exact absurd rfl hne
    | cons a l => rfl
  have h3 : ¬ (headers.map lowerStr).Nodup := fun hn => hdup hn.of_map
  have h4 : decide ((headers.map lowerStr).Nodup) = false := decide_eq_false h3
  cases h2 : headers.any (fun h => h.data.contains ']') with
  | true =>
    have hsc : sqliteCreateTable headers = .error "unrecognized token" := by
      unfold sqliteCreateTable
      rw [if_neg (by simp [h1]), if_pos h2]
    exact ⟨"unrecognized token", by rw [load_database_cons, hsc]⟩
  | false =>
    have hsc : sqliteCreateTable headers = .error "duplicate column name" := by
      unfold sqliteCreateTable
      rw [if_neg (by simp [h1]),
        if_neg (by rw [h2]; exact Bool.false_ne_true), if_pos (by simp [h4])]
    exact ⟨"duplicate column name", by rw [load_database_cons, hsc]⟩

/-- C3 witness: an empty header row and a duplicated header both make the
loader fail with the schema-level store error. -/
theorem load_database_failure_modes_witness :
    load_database (some [[]]) =
      .error (.operationalError "incomplete input") ∧
    ∃ m, load_database (some [["a", "a"], ["1", "2"]]) =
      .error (.operationalError m) :=
  ⟨load_database_failure_modes.2.1 [],
   load_database_failure_modes.2.2 ["a", "a"] [["1", "2"]] (by decide)
     (by decide)⟩

/-- C4: on a valid CSV — nonempty header without `]` or (case-insensitive)
duplicates, and every data row as wide as the header — the loader produces
exactly one table whose columns are the header names in order, all
declared TEXT, and whose rows are exactly the data rows. -/
theorem load_database_valid_csv (headers : List String)
    (dataRows : List (List String))
    (h1 : headers ≠ [])
    (h2 : headers.any (fun h => h.data.contains ']') = false)
    (h3 : (headers.map lowerStr).Nodup)
    (h4 : ∀ r ∈ dataRows, r.length = headers.length) :
    ∃ tbl : Table,
      load_database (some (headers :: dataRows)) = .ok [tbl] ∧
      tbl.cols.map Column.name = headers ∧
      tbl.cols.length = headers.length ∧
      (∀ c ∈ tbl.cols, c.type = "TEXT") ∧
      tbl.rows = dataRows := by
  refine ⟨⟨"electric_vehicle_population",
    headers.map (fun h => ⟨h, "TEXT"⟩), dataRows⟩, ?_, ?_, ?_, ?_, rfl⟩
  · have he : headers.isEmpty = false := by
      cases headers with
      | nil => exact absurd rfl h1
      | cons a l => rfl
    have hd : decide ((headers.map lowerStr).Nodup) = true := decide_eq_true h3
    have hsc : sqliteCreateTable headers =
        .ok ⟨"electric_vehicle_population",
          headers.map (fun h => ⟨h, "TEXT"⟩), []⟩ := by
      unfold sqliteCreateTable
      rw [if_neg (by simp [he]),
        if_neg (by rw [h2]; exact Bool.false_ne_true), if_neg (by simp [hd])]
    have hall : (dataRows.all fun r => decide (r.length = headers.length)) =
        true := by
      rw [List.all_eq_true]
      exact fun r hr => decide_eq_true (h4 r hr)
    rw [load_database_cons, hsc]
    simp only [hall]
    rw [if_pos trivial]
  · exact map_name_mk_text headers
  · simp
  · intro c hc
    simp only [List.mem_map] at hc
    obtain ⟨a, _, rfl⟩ := hc
    rfl

/-- C4 witness: a two-column, two-row CSV loads into the expected table. -/
theorem load_database_valid_csv_witness :
    ∃ tbl : Table,
      load_database (some [["a", "b"], ["1", "2"], ["3", "4"]]) =
        .ok [tbl] ∧
      tbl.cols.map Column.name = ["a", "b"] ∧
      tbl.cols.length = (["a", "b"] : List String).length ∧
      (∀ c ∈ tbl.cols, c.type = "TEXT") ∧
      tbl.rows = [["1", "2"], ["3", "4"]] :=
  load_database_valid_csv ["a", "b"] [["1", "2"], ["3", "4"]]
    (by decide) (by decide) (by decide) (by decide)

/-- Inversion for table creation: a successful CREATE TABLE yields exactly
the all-TEXT table over the header. -/
theorem sqliteCreateTable_ok (headers : List String) (t : Table)
    (h : sqliteCreateTable headers = .ok t) :
    t = ⟨"electric_vehicle_population",
      headers.map (fun h => ⟨h, "TEXT"⟩), []⟩ := by
  unfold sqliteCreateTable at h
  split_ifs at h
  all_goals first
    | exact Except.noConfusion h
    | (injection h with h2; exact h2.symm)

/-- Inversion for the loader: a successful load yields exactly the one
all-TEXT table holding the data rows. -/
theorem load_database_ok_shape (headers : List String)
    (dataRows : List (List String)) (db : DB)
    (hl : load_database (some (headers :: dataRows)) = .ok db) :
    db = [⟨"electric_vehicle_population",
      headers.map (fun h => ⟨h, "TEXT"⟩), dataRows⟩] := by
  rw [load_database_cons] at hl
  cases hc : sqliteCreateTable headers with
  | error e =>
    rw [hc] at hl
    exact Except.noConfusion hl
  | ok table =>
    rw [hc] at hl
    have htab := sqliteCreateTable_ok headers table hc
    subst htab
    have hl2 : (if dataRows.all (fun r => r.length = headers.length) then
        (.ok [{ (⟨"electric_vehicle_population",
          headers.map (fun h => ⟨h, "TEXT"⟩), []⟩ : Table) with
            rows := dataRows }] : Except LoadError DB)
      else
        .error (.programmingError "Incorrect number of bindings supplied")) =
        .ok db := hl
    by_cases hall : (dataRows.all fun r =>
        decide (r.length = headers.length)) = true
    · rw [if_pos hall] at hl2
      injection hl2 with h2
      exact h2.symm
    · rw [if_neg hall] at hl2
      exact Except.noConfusion hl2

/-- C7: loading a CSV with N data rows and then running
`SELECT count(*)` against the loaded table through the query path yields a
success envelope whose single result row carries the count N. -/
theorem load_then_count (headers : List String)
    (dataRows : List (List String)) (db : DB)
    (hl : load_database (some (headers :: dataRows)) = .ok db) :
    execute_select_query (execute_query db)
        "SELECT count(*) FROM electric_vehicle_population" =
      [("status", .str "success"),
       ("query", .str "SELECT count(*) FROM electric_vehicle_population"),
       ("total_rows", .nat 1),
       ("results", .arr [.obj [("count(*)", .nat dataRows.length)]])] := by
  have hdb := load_database_ok_shape headers dataRows db hl
  subst hdb
  have hlook : lookupTable [⟨"electric_vehicle_population",
      headers.map (fun h => ⟨h, "TEXT"⟩), dataRows⟩]
      "electric_vehicle_population" =
      some ⟨"electric_vehicle_population",
        headers.map (fun h => ⟨h, "TEXT"⟩), dataRows⟩ := rfl
  unfold execute_select_query execute_select_queryT
  rw [if_pos (by decide), execute_query_count_evp, hlook]
  rfl

/-- C7 witness: a one-column CSV with two data rows round-trips to a
count of 2. -/
theorem load_then_count_witness :
    execute_select_query
        (execute_query [⟨"electric_vehicle_population",
          [⟨"a", "TEXT"⟩], [["1"], ["2"]]⟩])
        "SELECT count(*) FROM electric_vehicle_population" =
      [("status", .str "success"),
       ("query", .str "SELECT count(*) FROM electric_vehicle_population"),
       ("total_rows", .nat 1),
       ("results", .arr [.obj [("count(*)", .nat 2)]])] :=
  load_then_count ["a"] [["1"], ["2"]]
    [⟨"electric_vehicle_population", [⟨"a", "TEXT"⟩], [["1"], ["2"]]⟩]
    (by rfl)

/-- Every error envelope satisfies the Result Envelope invariant. -/
theorem envelopeOk_errEnv (m : String) : envelopeOk (errEnv m) :=
  Or.inr ⟨rfl, ⟨m, rfl⟩, rfl⟩

/-- C9: every value returned by `list_tables`, `describe_table` and
`run_query`, over every store behaviour and every input, is a Result
Envelope carrying exactly one of payload data (status `success`, no
`error_message`) or an `error_message` (status `error`, no payload
fields). -/
theorem service_envelope_invariant (store : Store) (tn q : String) :
    envelopeOk (list_tables store) ∧
    envelopeOk (describe_table store tn) ∧
    envelopeOk (execute_select_query store q) := by
  refine ⟨?_, ?_, ?_⟩
  · unfold list_tables
    cases hx : store listTablesQuery >>= extractNames with
    | error e => exact envelopeOk_errEnv _
    | ok tables => exact Or.inl ⟨rfl, rfl, by simp [payloadKeys]⟩
  · have hbody : ∀ results : List Dict,
        envelopeOk (describeBody tn results) := by
      intro results
      unfold describeBody
      by_cases he : results.isEmpty = true
      · rw [if_pos he]
        exact envelopeOk_errEnv _
      · rw [if_neg he]
        cases hx : results.mapM buildColumn with
        | error e => exact envelopeOk_errEnv _
        | ok columns => exact Or.inl ⟨rfl, rfl, by simp [payloadKeys]⟩
    unfold describe_table describe_tableT
    cases hsq : store (describeQueryText tn) with
    | error e => exact envelopeOk_errEnv _
    | ok results => exact hbody results
  · unfold execute_select_query execute_select_queryT
    cases hb : pyStartswith (pyUpper (pyStrip q)) "SELECT" with
    | false => exact envelopeOk_errEnv _
    | true =>
      cases hsq : store q with
      | error e => exact envelopeOk_errEnv _
      | ok results => exact Or.inl ⟨rfl, rfl, by simp [payloadKeys]⟩
